import Mathlib

/-!
# Verification of the nianalysis pipeline/dataset-registry core

Shallow embedding of the declarative pipeline / dataset-specification and
archive-dispatch layer of the `nianalysis` repository, together with proofs
of the specified properties.

Embedded from the source:
* `Archive.sink` multiplicity dispatch (`nianalysis/archive/base.py`)
* `BaseArchiveSinkInputSpec.__setattr__` field validation and
  `BaseArchiveSink.__init__` trait creation (`nianalysis/archive/base.py`)
* the `Project` / `Subject` / `Visit` / `Session` identity model with its
  `__init__` back-reference assignment and `__eq__` methods
  (`nianalysis/archive/base.py`)

The `Pipeline` builder (`nianalysis.pipeline`), the dataset-spec registry
(`nianalysis.study.base.set_dataset_specs`), and the constants
`INPUT_SUFFIX` (`nianalysis.utils`) and `Dataset.MULTIPLICITY_OPTIONS`
(`nianalysis.dataset`) are not part of the available source tree; those are
modelled from the specification, as marked in their doc comments.
-/

namespace NiAnalysis

/-! ## Archive multiplicity dispatcher (`Archive.sink`) -/

/-- The four sink adapter classes an `Archive` exposes: `self.Sink`
(per-session), `self.SubjectSink`, `self.VisitSink`, `self.ProjectSink`. -/
inductive SinkClass where
  | session
  | subject
  | visit
  | project
  deriving DecidableEq, Repr

/-- Modelled from the spec: `Dataset.MULTIPLICITY_OPTIONS` lives in
`nianalysis.dataset`, which is not in the source tree.  The spec fixes the
multiplicities as `per_session | per_subject | per_visit | per_project`. -/
def MULTIPLICITY_OPTIONS : List String :=
  ["per_session", "per_subject", "per_visit", "per_project"]

/-- The message of the error raised by `Archive.sink` for an unrecognised
multiplicity: `"Unrecognised multiplicity '{}' can be one of '{}'"` with the
second slot filled by `"', '".join(Dataset.MULTIPLICITY_OPTIONS)`. -/
def unrecognisedMultiplicityMessage (multiplicity : String) : String :=
  "Unrecognised multiplicity '" ++ multiplicity ++ "' can be one of '" ++
    String.intercalate "', '" MULTIPLICITY_OPTIONS ++ "'"

/-- Python's `s.startswith(pre)`: character-level prefix test. -/
def startswith (s pre : String) : Bool :=
  pre.data.isPrefixOf s.data

/-- The sink-class selection of `Archive.sink`
(`nianalysis/archive/base.py`, lines 72-84): an `if/elif` chain of
`multiplicity.startswith(...)` tests, falling through to
`raise NiAnalysisError(...)` with a message listing the legal options. -/
def resolve_sink_class (multiplicity : String) : Except String SinkClass :=
  if startswith multiplicity "per_session" then .ok .session
  else if startswith multiplicity "per_subject" then .ok .subject
  else if startswith multiplicity "per_visit" then .ok .visit
  else if startswith multiplicity "per_project" then .ok .project
  else .error (unrecognisedMultiplicityMessage multiplicity)

/-! ## Archive sink field validation
(`BaseArchiveSinkInputSpec.__setattr__`, `BaseArchiveSink.__init__`) -/

/-- Modelled from the spec: `INPUT_SUFFIX` lives in `nianalysis.utils`, which
is not in the source tree.  The spec's end-to-end scenario pairs dataset
`qsm_summary` with accepted field `qsm_summary_out`, fixing the suffix. -/
def INPUT_SUFFIX : String := "_out"

/-- The statically declared traits of `BaseArchiveSinkInputSpec`
(`project_id`, `name`, `description`, `datasets`, `overwrite`,
`study_name`): attribute assignment to these always finds an existing
attribute, so `hasattr(self, name)` is true for them. -/
def base_sink_input_traits : List String :=
  ["project_id", "name", "description", "datasets", "overwrite", "study_name"]

/-- Observable state of a `BaseArchiveSinkInputSpec` instance.  Attribute
values are abstracted away (the validation in `__setattr__` depends only on
attribute names): `attrs` is the set of names for which `hasattr(self, name)`
holds, `datasets` the dataset names held by the `datasets` trait (empty until
assigned; `isdefined(self.datasets) and self.datasets` is false then), and
`sinkName` the `name` trait used in the error message. -/
structure SinkInputState where
  sinkName : String
  attrs : List String
  datasets : List String
  deriving Repr, DecidableEq

/-- `accepted = [s[0] + INPUT_SUFFIX for s in self.datasets]`. -/
def accepted (datasets : List String) : List String :=
  datasets.map (fun d => d ++ INPUT_SUFFIX)

/-- The assertion message of `BaseArchiveSinkInputSpec.__setattr__`:
`"'{}' is not a valid input filename for '{}' archive sink (accepts '{}')"`. -/
def invalidFieldMessage (name sinkName : String) (acc : List String) : String :=
  "'" ++ name ++ "' is not a valid input filename for '" ++ sinkName ++
    "' archive sink (accepts '" ++ String.intercalate "', '" acc ++ "')"

/-- `BaseArchiveSinkInputSpec.__setattr__` (`nianalysis/archive/base.py`,
lines 202-212): when the `datasets` trait is non-empty and the instance does
not already have an attribute called `name`, assert that `name` is one of the
declared dataset names plus `INPUT_SUFFIX`; then perform the assignment (a
failed assertion leaves the instance unchanged). -/
def sink_setattr (s : SinkInputState) (name : String) :
    Except String SinkInputState :=
  if ¬ s.datasets.isEmpty ∧ ¬ s.attrs.contains name then
    if (accepted s.datasets).contains name then
      .ok { s with attrs := s.attrs ++ [name] }
    else
      .error (invalidFieldMessage name s.sinkName (accepted s.datasets))
  else
    .ok { s with attrs := if s.attrs.contains name then s.attrs
                          else s.attrs ++ [name] }

/-- The class-level attributes each concrete sink input spec declares on top
of the base class (`nianalysis/archive/base.py`, lines 215-233):
`ArchiveSinkInputSpec` (per-session) declares `subject_id` and `visit_id`
(`subject_id` is assigned a tuple because of a trailing comma in the source,
but it is a class attribute all the same, so `hasattr` holds for it),
`ArchiveSubjectSinkInputSpec` declares `subject_id`,
`ArchiveVisitSinkInputSpec` declares `visit_id`, and
`ArchiveProjectSinkInputSpec` declares nothing. -/
def sink_class_traits : SinkClass → List String
  | .session => ["subject_id", "visit_id"]
  | .subject => ["subject_id"]
  | .visit => ["visit_id"]
  | .project => []

/-- The input-spec state of a sink node after `Archive.sink`: the instance
has attributes for everything inherited from the nipype/HasTraits machinery
(`inherited`, arbitrary here), the base input-spec traits, the concrete sink
class's own id traits, and — added by `BaseArchiveSink.__init__` via
`add_traits` — one trait per output dataset name plus `INPUT_SUFFIX`;
`Archive.sink` then populates the `datasets` trait with the same dataset
list. -/
def archive_sink_inputs (inherited : List String) (cls : SinkClass)
    (sinkName : String) (output_datasets : List String) : SinkInputState :=
  { sinkName := sinkName
    attrs := inherited ++ base_sink_input_traits ++ sink_class_traits cls ++
      accepted output_datasets
    datasets := output_datasets }

/-- A sequence of attribute assignments; an assignment whose assertion fails
raises and leaves the state unchanged. -/
def assign_seq (s : SinkInputState) : List String → SinkInputState
  | [] => s
  | n :: rest =>
    match sink_setattr s n with
    | .ok s2 => assign_seq s2 rest
    | .error _ => assign_seq s rest

/-! ## Project / Subject / Visit / Session identity model -/

/-- Modelled from the spec: `Dataset` lives in `nianalysis.dataset`, which is
not in the source tree; the spec describes it as a named data product, and
the identity model only ever reads `d.name`. -/
structure Dataset where
  name : String
  deriving Repr, DecidableEq

/-- `Session` (`nianalysis/archive/base.py`): `__init__` stores the ids, the
dataset list and the optional processed session, and initialises the
`_subject` / `_visit` back-references to `None`.  Object references are
modelled as heap addresses (`Nat`): `subject`/`visit` hold the address of the
owning `Subject`/`Visit` object, assigned by their constructors. -/
structure Session where
  subject_id : String
  visit_id : String
  datasets : List Dataset
  subject : Option Nat
  visit : Option Nat
  processed : Option Session
  deriving Repr

/-- `Session.__init__(subject_id, visit_id, datasets, processed=None)`. -/
def Session.init (subject_id visit_id : String) (datasets : List Dataset)
    (processed : Option Session) : Session :=
  { subject_id := subject_id, visit_id := visit_id, datasets := datasets
    subject := none, visit := none, processed := processed }

/-- `Subject` (`nianalysis/archive/base.py`): holds `_id`, `_sessions`,
`_datasets`.  `addr` is the object's heap address in the reference model. -/
structure Subject where
  addr : Nat
  subject_id : String
  sessions : List Session
  datasets : List Dataset
  deriving Repr

/-- `Subject.__init__(subject_id, sessions, datasets)` (lines 403-408):
stores its arguments and then runs
`for session in sessions: session.subject = self`, mutating every session in
the given list to point back at the new object (at address `addr`).  The
stored `_sessions` list is that same mutated list. -/
def Subject.init (addr : Nat) (subject_id : String) (sessions : List Session)
    (datasets : List Dataset) : Subject :=
  { addr := addr, subject_id := subject_id
    sessions := sessions.map (fun s => { s with subject := some addr })
    datasets := datasets }

/-- `Visit` (`nianalysis/archive/base.py`): holds `_id`, `_sessions`,
`_datasets`.  `addr` is the object's heap address in the reference model. -/
structure Visit where
  addr : Nat
  visit_id : String
  sessions : List Session
  datasets : List Dataset
  deriving Repr

/-- `Visit.__init__(visit_id, sessions, datasets)` (lines 448-453): stores
its arguments and then runs
`for session in sessions: session.visit = self`. -/
def Visit.init (addr : Nat) (visit_id : String) (sessions : List Session)
    (datasets : List Dataset) : Visit :=
  { addr := addr, visit_id := visit_id
    sessions := sessions.map (fun s => { s with visit := some addr })
    datasets := datasets }

/-- `Project` (`nianalysis/archive/base.py`): `__init__` (lines 355-359)
assigns exactly `_id`, `_subjects`, `_visits` and `_datasets` — it never
assigns a `_sessions` attribute. -/
structure Project where
  project_id : String
  subjects : List Subject
  visits : List Visit
  datasets : List Dataset
  deriving Repr

/-- A Python value appearing as the right operand of `==`.  `Subject`,
`Visit`, `Project` and `Session` are unrelated classes (each derives directly
from `object`), so `isinstance(other, Subject)` holds exactly on the
`subject` constructor. -/
inductive PyObj where
  | subject (s : Subject)
  | visit (v : Visit)
  | project (p : Project)
  | session (s : Session)
  | str (s : String)

/-- Python `iter(xs) == iter(ys)` inside `Session.__eq__`: the `datasets`
property returns `iter(self._datasets)`, so `==` compares two freshly created
iterator objects by identity, which is false for every pair of operands. -/
def iterEq (_xs _ys : List Dataset) : Bool := false

/-- `Session.__eq__` (lines 568-574): compares `subject_id`, `visit_id`, the
`datasets` properties (fresh iterators, see `iterEq`) and `processed`
(`None == None` is true, `None` against a session is false, two sessions
recurse). -/
def Session.beq : Session → Session → Bool
  | ⟨si, vi, ds, _, _, pr⟩, ⟨si2, vi2, ds2, _, _, pr2⟩ =>
    si == si2 && vi == vi2 && iterEq ds ds2 &&
      match pr, pr2 with
      | some x, some y => Session.beq x y
      | none, none => true
      | _, _ => false

/-- Python list equality over sessions: equal lengths and pairwise `==`. -/
def pySessionsEq (xs ys : List Session) : Bool :=
  xs.length == ys.length && (xs.zip ys).all (fun p => Session.beq p.1 p.2)

/-- `Visit.__eq__` (`nianalysis/archive/base.py`, lines 471-475): tests
`isinstance(other, Subject)` — not `Visit` — and returns `False` when that
fails; otherwise compares `_id` and `_sessions`. -/
def Visit.eq (self : Visit) (other : PyObj) : Bool :=
  match other with
  | .subject s => self.visit_id == s.subject_id &&
      pySessionsEq self.sessions s.sessions
  | _ => false

/-- `Visit.__ne__`: `not (self == other)`. -/
def Visit.ne (self : Visit) (other : PyObj) : Bool :=
  ! Visit.eq self other

/-- `Project.__eq__` (`nianalysis/archive/base.py`, lines 381-385): returns
`False` for a non-`Project` operand; otherwise evaluates
`self._id == other._id and self._sessions == other._sessions`.  The `and`
short-circuits, so when the ids differ the result is `False`; when they are
equal, the lookup of `self._sessions` — an attribute `__init__` never
assigns — raises `AttributeError`. -/
def Project.eq (self : Project) (other : PyObj) : Except String Bool :=
  match other with
  | .project p =>
    if self.project_id == p.project_id then
      .error "AttributeError: Project object has no attribute _sessions"
    else
      .ok false
  | _ => .ok false

/-! ## Pipeline builder (modelled from the spec) -/

/-- The error taxonomy of the spec's pipeline builder. -/
inductive PipelineError where
  | undeclaredIOError (name : String)
  | disconnectedIOError (name : String)
  deriving Repr, DecidableEq

/-- Modelled from the spec: the `Pipeline` class of `nianalysis.pipeline` is
not in the source tree (only its callers are).  A pipeline is a named graph
with declared input/output dataset names, created nodes, recorded
input/output connections `(dataset_name, node, field)` and node-to-node
edges. -/
structure Pipeline where
  name : String
  inputs : List String
  outputs : List String
  nodes : List String
  input_connections : List (String × String × String)
  output_connections : List (String × String × String)
  edges : List (String × String × String × String)
  deriving Repr, DecidableEq

/-- Modelled from the spec: `create_pipeline(name, inputs, outputs, ...)`
returns a fresh builder context with the declared I/O and no recorded
connections. -/
def create_pipeline (name : String) (inputs outputs : List String) :
    Pipeline :=
  { name := name, inputs := inputs, outputs := outputs, nodes := []
    input_connections := [], output_connections := [], edges := [] }

/-- Modelled from the spec: `pipeline.connect_input(dataset_name, node,
field)` records a connection for a declared input and fails with
`UndeclaredIOError` if `dataset_name` was not listed in `inputs` at
`create_pipeline` time. -/
def connect_input (p : Pipeline) (dataset_name node field : String) :
    Except PipelineError Pipeline :=
  if p.inputs.contains dataset_name then
    .ok { p with input_connections :=
            p.input_connections ++ [(dataset_name, node, field)] }
  else
    .error (.undeclaredIOError dataset_name)

/-- Modelled from the spec: `pipeline.connect_output(dataset_name, node,
field)`, the output-side counterpart of `connect_input`. -/
def connect_output (p : Pipeline) (dataset_name node field : String) :
    Except PipelineError Pipeline :=
  if p.outputs.contains dataset_name then
    .ok { p with output_connections :=
            p.output_connections ++ [(dataset_name, node, field)] }
  else
    .error (.undeclaredIOError dataset_name)

/-- A declared input has at least one recorded connection. -/
def connected_input (p : Pipeline) (n : String) : Bool :=
  p.input_connections.any (fun c => c.1 == n)

/-- A declared output has at least one recorded connection. -/
def connected_output (p : Pipeline) (n : String) : Bool :=
  p.output_connections.any (fun c => c.1 == n)

/-- Modelled from the spec: `pipeline.assert_connected()` validates that
every declared input and output has at least one connection and fails with
`DisconnectedIOError` naming the offending dataset otherwise (a single pass
over the declared I/O, not a reachability check). -/
def assert_connected (p : Pipeline) : Except PipelineError Unit :=
  match p.inputs.find? (fun n => ! connected_input p n) with
  | some n => .error (.disconnectedIOError n)
  | none =>
    match p.outputs.find? (fun n => ! connected_output p n) with
    | some n => .error (.disconnectedIOError n)
    | none => .ok ()

/-! ## DatasetSpec registry (modelled from the spec) -/

/-- The error taxonomy of the spec's registry. -/
inductive RegistryError where
  | unknownDataset (name : String)
  | duplicateName (name : String)
  deriving Repr, DecidableEq

/-- Modelled from the spec: `DatasetSpec` lives in `nianalysis.dataset`,
which is not in the source tree.  A spec has a `name`, a `format` tag and an
optional producing pipeline (absent for acquired datasets), here identified
by the factory's name. -/
structure RegDatasetSpec where
  name : String
  format : String
  producer : Option String
  deriving Repr, DecidableEq

/-- First name that collides with a later sibling in a declaration list. -/
def firstDuplicateName : List RegDatasetSpec → Option String
  | [] => none
  | s :: rest =>
    if rest.any (fun t => t.name == s.name) then some s.name
    else firstDuplicateName rest

/-- Modelled from the spec: `register(specs)` (`set_dataset_specs` in
`nianalysis.study.base`, not in the source tree) fails with
`DuplicateNameError` if any name collides within one declaration list. -/
def register (specs : List RegDatasetSpec) :
    Except RegistryError (List RegDatasetSpec) :=
  match firstDuplicateName specs with
  | some n => .error (.duplicateName n)
  | none => .ok specs

/-- Modelled from the spec: `resolve(name)` looks the name up in the registry
and fails with `UnknownDatasetError` if it is absent. -/
def resolve (registry : List RegDatasetSpec) (name : String) :
    Except RegistryError RegDatasetSpec :=
  match registry.find? (fun s => s.name == name) with
  | some s => .ok s
  | none => .error (.unknownDataset name)

/-- Modelled from the spec: merging a parent study's registry with a child
study's declarations, child taking precedence on name collision. -/
def merge_specs (parent child : List RegDatasetSpec) :
    List RegDatasetSpec :=
  parent.filter (fun s => ! child.any (fun c => c.name == s.name)) ++ child

/-- `startswith` restated as list-prefix of the character data. -/
theorem startswith_iff (s pre : String) :
    startswith s pre = true ↔ pre.data <+: s.data := by
  unfold startswith
  exact List.isPrefixOf_iff_prefix

/-- Two prefixes of the same string are comparable, so if neither of `p`, `q`
is a prefix of the other and `m` starts with `q`, then `m` does not start
with `p`. -/
theorem startswith_excl {p q : String} (m : String)
    (h : ¬ (p.data <+: q.data ∨ q.data <+: p.data))
    (hq : startswith m q = true) : startswith m p = false := by
  rw [Bool.eq_false_iff]
  intro hp
  rw [startswith_iff] at hp hq
  exact h (List.prefix_or_prefix_of_prefix hp hq)

/-- A multiplicity matching none of the four legal prefixes falls through
the whole `if/elif` chain of `Archive.sink` to the `raise`. -/
theorem resolve_sink_class_no_match (m : String)
    (hall : ∀ pre ∈ MULTIPLICITY_OPTIONS, startswith m pre = false) :
    resolve_sink_class m = .error (unrecognisedMultiplicityMessage m) := by
  have h1 := hall "per_session" (by simp [MULTIPLICITY_OPTIONS])
  have h2 := hall "per_subject" (by simp [MULTIPLICITY_OPTIONS])
  have h3 := hall "per_visit" (by simp [MULTIPLICITY_OPTIONS])
  have h4 := hall "per_project" (by simp [MULTIPLICITY_OPTIONS])
  simp [resolve_sink_class, h1, h2, h3, h4]

/-- C1: the archive sink dispatcher selects the sink adapter class by prefix
match on the multiplicity string: `per_session*` resolves to the session
sink, `per_subject*` to the subject sink, `per_visit*` to the visit sink,
`per_project*` to the project sink; in particular `per_subject_group`
resolves to the same class as `per_subject`, and a multiplicity starting
with none of the four prefixes fails with the unrecognised-multiplicity
error. -/
theorem sink_dispatch_prefix_match (m : String) :
    (startswith m "per_session" = true →
      resolve_sink_class m = .ok .session) ∧
    (startswith m "per_subject" = true →
      resolve_sink_class m = .ok .subject) ∧
    (startswith m "per_visit" = true →
      resolve_sink_class m = .ok .visit) ∧
    (startswith m "per_project" = true →
      resolve_sink_class m = .ok .project) ∧
    resolve_sink_class "per_subject_group" =
      resolve_sink_class "per_subject" ∧
    ((∀ pre ∈ MULTIPLICITY_OPTIONS, startswith m pre = false) →
      resolve_sink_class m = .error (unrecognisedMultiplicityMessage m)) := by
  refine ⟨?_, ?_, ?_, ?_, ?_, ?_⟩
  · intro h
    simp [resolve_sink_class, h]
  · intro h
    have h1 : startswith m "per_session" = false :=
      startswith_excl m (by decide) h
    simp [resolve_sink_class, h, h1]
  · intro h
    have h1 : startswith m "per_session" = false :=
      startswith_excl m (by decide) h
    have h2 : startswith m "per_subject" = false :=
      startswith_excl m (by decide) h
    simp [resolve_sink_class, h, h1, h2]
  · intro h
    have h1 : startswith m "per_session" = false :=
      startswith_excl m (by decide) h
    have h2 : startswith m "per_subject" = false :=
      startswith_excl m (by decide) h
    have h3 : startswith m "per_visit" = false :=
      startswith_excl m (by decide) h
    simp [resolve_sink_class, h, h1, h2, h3]
  · rfl
  · exact resolve_sink_class_no_match m

/-- Witness for C1 at concrete inputs: `per_subject_group` resolves to the
subject sink and `per_unknown` is rejected. -/
theorem sink_dispatch_prefix_match_witness :
    resolve_sink_class "per_subject_group" = .ok .subject ∧
    resolve_sink_class "per_unknown" =
      .error (unrecognisedMultiplicityMessage "per_unknown") :=
  ⟨(sink_dispatch_prefix_match "per_subject_group").2.1 (by decide),
   (sink_dispatch_prefix_match "per_unknown").2.2.2.2.2 (by decide)⟩

/-- C7: on an unrecognised multiplicity the dispatcher fails with the
unrecognised-multiplicity error, whose message enumerates the complete set
of legal multiplicity options (each option occurs in the message text). -/
theorem unrecognised_multiplicity_error_message (m : String)
    (hall : ∀ pre ∈ MULTIPLICITY_OPTIONS, startswith m pre = false) :
    resolve_sink_class m = .error (unrecognisedMultiplicityMessage m) ∧
    unrecognisedMultiplicityMessage m =
      "Unrecognised multiplicity '" ++ m ++
        "' can be one of 'per_session', 'per_subject', 'per_visit', " ++
        "'per_project'" ∧
    ∀ pre ∈ MULTIPLICITY_OPTIONS,
      pre.data <:+: (unrecognisedMultiplicityMessage m).data := by
  refine ⟨resolve_sink_class_no_match m hall, ?_, ?_⟩
  · apply String.ext
    simp only [unrecognisedMultiplicityMessage, String.data_append,
      List.append_assoc]
    rfl
  · intro pre hpre
    have hmsg : (unrecognisedMultiplicityMessage m).data =
        ("Unrecognised multiplicity '" ++ m).data ++
          ("' can be one of '" ++
            String.intercalate "', '" MULTIPLICITY_OPTIONS ++ "'").data := by
      simp [unrecognisedMultiplicityMessage]
    rw [hmsg]
    have htail : pre.data <:+:
        ("' can be one of '" ++
          String.intercalate "', '" MULTIPLICITY_OPTIONS ++ "'").data := by
      simp only [MULTIPLICITY_OPTIONS, List.mem_cons, List.not_mem_nil,
        or_false] at hpre
      rcases hpre with h | h | h | h <;> subst h <;> decide
    exact htail.trans (List.suffix_append _ _).isInfix

/-- Witness for C7 at the concrete unrecognised multiplicity `per_run`. -/
theorem unrecognised_multiplicity_error_message_witness :
    resolve_sink_class "per_run" =
      .error (unrecognisedMultiplicityMessage "per_run") ∧
    unrecognisedMultiplicityMessage "per_run" =
      "Unrecognised multiplicity '" ++ "per_run" ++
        "' can be one of 'per_session', 'per_subject', 'per_visit', " ++
        "'per_project'" ∧
    ∀ pre ∈ MULTIPLICITY_OPTIONS,
      pre.data <:+: (unrecognisedMultiplicityMessage "per_run").data :=
  unrecognised_multiplicity_error_message "per_run" (by decide)

/-- Assigning an attribute the instance already has skips the validation of
`__setattr__` entirely and leaves the name set unchanged. -/
theorem sink_setattr_mem_attrs {s : SinkInputState} {a : String}
    (h : a ∈ s.attrs) : sink_setattr s a = .ok s := by
  simp [sink_setattr, h]

/-- A sequence of assignments to already-present attributes leaves the
observable state unchanged. -/
theorem assign_seq_id {s : SinkInputState} (names : List String)
    (h : ∀ n ∈ names, n ∈ s.attrs) : assign_seq s names = s := by
  induction names with
  | nil => rfl
  | cons n rest ih =>
    have hn : n ∈ s.attrs := h n (List.mem_cons_self n rest)
    simp only [assign_seq, sink_setattr_mem_attrs hn]
    exact ih (fun x hx => h x (List.mem_cons_of_mem n hx))

/-- Counterexample to C2 as stated: on a per-session sink constructed over
the non-empty dataset list `["qsm_summary"]`, assigning the field names
`subject_id` (a trait its input-spec class declares,
`nianalysis/archive/base.py` lines 215-219) or `project_id` (a trait of the
base class, assigned by `Archive.sink` itself) — neither of which is any
declared dataset name plus `INPUT_SUFFIX` — does not raise:
`hasattr(self, name)` is true for them, so `__setattr__` skips the
accepted-name check. -/
theorem sink_setattr_base_trait_counterexample :
    "subject_id" ∉ accepted ["qsm_summary"] ∧
    sink_setattr
        (archive_sink_inputs [] .session "qsm_sink" ["qsm_summary"])
        "subject_id" =
      .ok (archive_sink_inputs [] .session "qsm_sink" ["qsm_summary"]) ∧
    "project_id" ∉ accepted ["qsm_summary"] ∧
    sink_setattr
        (archive_sink_inputs [] .session "qsm_sink" ["qsm_summary"])
        "project_id" =
      .ok (archive_sink_inputs [] .session "qsm_sink" ["qsm_summary"]) :=
  ⟨by decide, sink_setattr_mem_attrs (by decide), by decide,
   sink_setattr_mem_attrs (by decide)⟩

/-- C2 (amended): on a sink constructed over a non-empty declared dataset
list, after any sequence of prior accepted assignments, assigning a field
name for which the input-spec instance has no attribute — neither inherited
from the HasTraits machinery, nor a base input-spec trait, nor one of the
concrete sink class's own id traits, nor a declared dataset name plus
`INPUT_SUFFIX` — fails with the invalid-field error naming the sink and the
accepted name set, on every such assignment; assigning an accepted field
name (also repeatedly) never raises and leaves the validation state
unchanged. -/
theorem sink_field_validation_amended (inherited : List String)
    (cls : SinkClass) (nm : String) (ds : List String) (hds : ds ≠ [])
    (prior : List String)
    (hprior : ∀ p ∈ prior,
      p ∈ (archive_sink_inputs inherited cls nm ds).attrs) :
    (∀ name, name ∉ (archive_sink_inputs inherited cls nm ds).attrs →
      sink_setattr
          (assign_seq (archive_sink_inputs inherited cls nm ds) prior)
          name =
        .error (invalidFieldMessage name nm (accepted ds))) ∧
    (∀ a ∈ accepted ds,
      sink_setattr
          (assign_seq (archive_sink_inputs inherited cls nm ds) prior) a =
        .ok (assign_seq (archive_sink_inputs inherited cls nm ds) prior)) := by
  rw [assign_seq_id prior hprior]
  constructor
  · intro name hattrs
    have hacc : name ∉ accepted ds := fun h =>
      hattrs (by simp [archive_sink_inputs, h])
    have hne : ds.isEmpty = false := by
      simp [List.isEmpty_iff, hds]
    simp [sink_setattr, archive_sink_inputs, hne, hacc]
    refine ⟨fun h => hattrs ?_, fun h => hattrs ?_, fun h => hattrs ?_⟩ <;>
      simp [archive_sink_inputs, h]
  · intro a ha
    apply sink_setattr_mem_attrs
    simp [archive_sink_inputs, ha]

/-- Witness for C2 (amended) at a concrete per-session sink over
`["qsm_summary"]` with an inherited machinery attribute `trait_names`, after
assigning the valid field `qsm_summary_out` twice and the class trait
`subject_id` once: the unknown field `random_field` still raises with the
message naming the sink and the accepted set, and assigning
`qsm_summary_out` again succeeds. -/
theorem sink_field_validation_amended_witness :
    (["qsm_summary"] ≠ ([] : List String)) ∧
    (∀ p ∈ ["qsm_summary_out", "subject_id", "qsm_summary_out"],
      p ∈ (archive_sink_inputs ["trait_names"] .session "qsm_sink"
        ["qsm_summary"]).attrs) ∧
    sink_setattr
        (assign_seq
          (archive_sink_inputs ["trait_names"] .session "qsm_sink"
            ["qsm_summary"])
          ["qsm_summary_out", "subject_id", "qsm_summary_out"])
        "random_field" =
      .error (invalidFieldMessage "random_field" "qsm_sink"
        (accepted ["qsm_summary"])) ∧
    sink_setattr
        (assign_seq
          (archive_sink_inputs ["trait_names"] .session "qsm_sink"
            ["qsm_summary"])
          ["qsm_summary_out", "subject_id", "qsm_summary_out"])
        "qsm_summary_out" =
      .ok (assign_seq
        (archive_sink_inputs ["trait_names"] .session "qsm_sink"
          ["qsm_summary"])
        ["qsm_summary_out", "subject_id", "qsm_summary_out"]) := by
  refine ⟨by decide, by decide, ?_, ?_⟩
  · exact (sink_field_validation_amended ["trait_names"] .session "qsm_sink"
      ["qsm_summary"] (by decide)
      ["qsm_summary_out", "subject_id", "qsm_summary_out"] (by decide)).1
      "random_field" (by decide)
  · exact (sink_field_validation_amended ["trait_names"] .session "qsm_sink"
      ["qsm_summary"] (by decide)
      ["qsm_summary_out", "subject_id", "qsm_summary_out"] (by decide)).2
      "qsm_summary_out" (by decide)

/-- C8: constructing a `Subject` (respectively a `Visit`) over a list of
sessions assigns the back-reference on every one of those sessions: the
session list held by the constructed object is the input list with every
session's `subject` (respectively `visit`) field set to the new object's
address, so every session in it references the constructed object. -/
theorem construction_backrefs (a b : Nat) (sid vid : String)
    (ss ts : List Session) (ds es : List Dataset) :
    ((Subject.init a sid ss ds).sessions =
        ss.map (fun s => { s with subject := some a }) ∧
      ∀ s ∈ (Subject.init a sid ss ds).sessions,
        s.subject = some (Subject.init a sid ss ds).addr) ∧
    ((Visit.init b vid ts es).sessions =
        ts.map (fun s => { s with visit := some b }) ∧
      ∀ s ∈ (Visit.init b vid ts es).sessions,
        s.visit = some (Visit.init b vid ts es).addr) := by
  refine ⟨⟨rfl, ?_⟩, ⟨rfl, ?_⟩⟩
  · intro s hs
    simp only [Subject.init, List.mem_map] at hs
    obtain ⟨t, _, rfl⟩ := hs
    rfl
  · intro s hs
    simp only [Visit.init, List.mem_map] at hs
    obtain ⟨t, _, rfl⟩ := hs
    rfl

/-- Witness for C8 at a concrete subject (address 7) and visit (address 9)
each constructed over one session: that session's back-reference fields
point at the constructed objects. -/
theorem construction_backrefs_witness :
    ({ (Session.init "s1" "v1" [] none) with subject := some 7 }).subject =
      some 7 ∧
    ({ (Session.init "s1" "v1" [] none) with visit := some 9 }).visit =
      some 9 :=
  ⟨(construction_backrefs 7 9 "s1" "v1" [Session.init "s1" "v1" [] none]
      [Session.init "s1" "v1" [] none] [] []).1.2 _
      (by simp [Subject.init]),
   (construction_backrefs 7 9 "s1" "v1" [Session.init "s1" "v1" [] none]
      [Session.init "s1" "v1" [] none] [] []).2.2 _
      (by simp [Visit.init])⟩

/-- C9: equality on `Visit` objects is never reflexive: `Visit.__eq__` tests
`isinstance(other, Subject)`, which a `Visit` never satisfies, so `v1 == v2`
is `False` for every pair of visits — including `v1 == v1` — and
`v1 != v2` is always `True`. -/
theorem visit_eq_never_reflexive (v1 v2 : Visit) :
    Visit.eq v1 (.visit v2) = false ∧
    Visit.eq v1 (.visit v1) = false ∧
    Visit.ne v1 (.visit v2) = true :=
  ⟨rfl, rfl, rfl⟩

/-- Counterexample to C10 as stated: comparing two `Project` instances with
different ids returns the boolean `False` and raises nothing — the `and` in
`Project.__eq__` short-circuits on `self._id == other._id` before the
missing `_sessions` attribute is ever read. -/
theorem project_eq_short_circuit_counterexample :
    Project.eq
        { project_id := "a", subjects := [], visits := [], datasets := [] }
        (.project { project_id := "b", subjects := [], visits := [], datasets := [] }) =
      .ok false := rfl

/-- C10 (amended): comparing two `Project` instances whose `_id`s are equal
raises `AttributeError` (the `__eq__` reads `self._sessions`, which
`__init__` never assigns); comparing two with different `_id`s returns
`False` (the `and` short-circuits); comparing a `Project` with a
non-`Project` value returns `False`. -/
theorem project_eq_amended (p q : Project) (other : PyObj) :
    (p.project_id = q.project_id →
      Project.eq p (.project q) =
        .error "AttributeError: Project object has no attribute _sessions") ∧
    (p.project_id ≠ q.project_id →
      Project.eq p (.project q) = .ok false) ∧
    ((∀ r, other ≠ .project r) → Project.eq p other = .ok false) := by
  refine ⟨?_, ?_, ?_⟩
  · intro h
    simp [Project.eq, h]
  · intro h
    simp [Project.eq, h]
  · intro h
    cases other with
    | project r => exact absurd rfl (h r)
    | subject s => rfl
    | visit v => rfl
    | session s => rfl
    | str s => rfl

/-- Witness for C10 (amended) at concrete projects: equal ids raise, unequal
ids and a string operand compare `False`. -/
theorem project_eq_amended_witness :
    Project.eq
        { project_id := "a", subjects := [], visits := [], datasets := [] }
        (.project { project_id := "a", subjects := [], visits := [], datasets := [] }) =
      .error "AttributeError: Project object has no attribute _sessions" ∧
    Project.eq
        { project_id := "a", subjects := [], visits := [], datasets := [] }
        (.project { project_id := "c", subjects := [], visits := [], datasets := [] }) =
      .ok false ∧
    Project.eq
        { project_id := "a", subjects := [], visits := [], datasets := [] }
        (.str "a") =
      .ok false :=
  ⟨(project_eq_amended
      { project_id := "a", subjects := [], visits := [], datasets := [] }
      { project_id := "a", subjects := [], visits := [], datasets := [] }
      (.str "a")).1 rfl,
   (project_eq_amended
      { project_id := "a", subjects := [], visits := [], datasets := [] }
      { project_id := "c", subjects := [], visits := [], datasets := [] }
      (.str "a")).2.1 (by decide),
   (project_eq_amended
      { project_id := "a", subjects := [], visits := [], datasets := [] }
      { project_id := "a", subjects := [], visits := [], datasets := [] }
      (.str "a")).2.2 (fun r h => nomatch h)⟩

/-- C3: `assert_connected` succeeds exactly when every declared input and
output has at least one recorded connection, and when it fails it names the
exact disconnected dataset (a declared input or output with no recorded
connection). -/
theorem assert_connected_eq_ok {p : Pipeline}
    (hin : p.inputs.find? (fun m => ! connected_input p m) = none)
    (hout : p.outputs.find? (fun m => ! connected_output p m) = none) :
    assert_connected p = .ok () := by
  unfold assert_connected
  rw [hin, hout]

/-- `assert_connected` reports the first disconnected declared input. -/
theorem assert_connected_eq_error_input {p : Pipeline} {n : String}
    (hin : p.inputs.find? (fun m => ! connected_input p m) = some n) :
    assert_connected p = .error (.disconnectedIOError n) := by
  unfold assert_connected
  rw [hin]

/-- With all inputs connected, `assert_connected` reports the first
disconnected declared output. -/
theorem assert_connected_eq_error_output {p : Pipeline} {n : String}
    (hin : p.inputs.find? (fun m => ! connected_input p m) = none)
    (hout : p.outputs.find? (fun m => ! connected_output p m) = some n) :
    assert_connected p = .error (.disconnectedIOError n) := by
  unfold assert_connected
  rw [hin, hout]

/-- C3: `assert_connected` succeeds exactly when every declared input and
output has at least one recorded connection, and when it fails it names the
exact disconnected dataset (a declared input or output with no recorded
connection). -/
theorem assert_connected_iff (p : Pipeline) :
    (assert_connected p = .ok () ↔
      (∀ n ∈ p.inputs, connected_input p n = true) ∧
      (∀ n ∈ p.outputs, connected_output p n = true)) ∧
    (∀ e, assert_connected p = .error e →
      ∃ n, e = .disconnectedIOError n ∧
        ((n ∈ p.inputs ∧ connected_input p n = false) ∨
         (n ∈ p.outputs ∧ connected_output p n = false))) := by
  rcases hin : p.inputs.find? (fun m => ! connected_input p m) with _ | n
  · rcases hout : p.outputs.find? (fun m => ! connected_output p m)
      with _ | n
    · rw [assert_connected_eq_ok hin hout]
      rw [List.find?_eq_none] at hin hout
      refine ⟨⟨fun _ => ⟨fun m hm => ?_, fun m hm => ?_⟩, fun _ => rfl⟩,
        fun e he => by cases he⟩
      · simpa using hin m hm
      · simpa using hout m hm
    · rw [assert_connected_eq_error_output hin hout]
      have hmem := List.mem_of_find?_eq_some hout
      have hprop := List.find?_some hout
      rw [Bool.not_eq_true'] at hprop
      refine ⟨⟨fun he => (by cases he), fun hall => ?_⟩, fun e he => ?_⟩
      · have hconn := hall.2 n hmem
        rw [hprop] at hconn
        cases hconn
      · injection he with he2
        exact ⟨n, he2.symm, Or.inr ⟨hmem, hprop⟩⟩
  · rw [assert_connected_eq_error_input hin]
    have hmem := List.mem_of_find?_eq_some hin
    have hprop := List.find?_some hin
    rw [Bool.not_eq_true'] at hprop
    refine ⟨⟨fun he => (by cases he), fun hall => ?_⟩, fun e he => ?_⟩
    · have hconn := hall.1 n hmem
      rw [hprop] at hconn
      cases hconn
    · injection he with he2
      exact ⟨n, he2.symm, Or.inl ⟨hmem, hprop⟩⟩

/-- Witness for C3 at the spec's end-to-end `bet_T1` scenario: a pipeline
with input `t1` and output `betted_T1`, both wired to the `bet` node, passes
`assert_connected`; the variant missing the output connection fails naming
exactly `betted_T1`. -/
theorem assert_connected_iff_witness :
    assert_connected
        { name := "bet_T1", inputs := ["t1"], outputs := ["betted_T1"],
          nodes := ["bet"],
          input_connections := [("t1", "bet", "in_file")],
          output_connections := [("betted_T1", "bet", "out_file")],
          edges := [] } = .ok () ∧
    ∃ n, PipelineError.disconnectedIOError "betted_T1" =
        PipelineError.disconnectedIOError n ∧
      ((n ∈ ["t1"] ∧ connected_input
          { name := "bet_T1", inputs := ["t1"], outputs := ["betted_T1"],
            nodes := ["bet"],
            input_connections := [("t1", "bet", "in_file")],
            output_connections := [], edges := [] } n = false) ∨
       (n ∈ ["betted_T1"] ∧ connected_output
          { name := "bet_T1", inputs := ["t1"], outputs := ["betted_T1"],
            nodes := ["bet"],
            input_connections := [("t1", "bet", "in_file")],
            output_connections := [], edges := [] } n = false)) :=
  ⟨(assert_connected_iff _).1.mpr ⟨by decide, by decide⟩,
   (assert_connected_iff
      { name := "bet_T1", inputs := ["t1"], outputs := ["betted_T1"],
        nodes := ["bet"],
        input_connections := [("t1", "bet", "in_file")],
        output_connections := [], edges := [] }).2
      (.disconnectedIOError "betted_T1") rfl⟩

/-- C4: resolving a registered dataset name returns a spec carrying exactly
that name, and resolving a name no registered spec carries fails with
`UnknownDatasetError`. -/
theorem resolve_registered (registry : List RegDatasetSpec) (n : String) :
    ((∃ s ∈ registry, s.name = n) →
      ∃ s, resolve registry n = .ok s ∧ s.name = n) ∧
    ((∀ s ∈ registry, s.name ≠ n) →
      resolve registry n = .error (.unknownDataset n)) := by
  constructor
  · rintro ⟨s, hs, hname⟩
    have hsome : (registry.find? (fun t => t.name == n)).isSome := by
      rw [List.find?_isSome]
      exact ⟨s, hs, by simp [hname]⟩
    rcases hfind : registry.find? (fun t => t.name == n) with _ | t
    · rw [hfind] at hsome
      cases hsome
    · have ht := List.find?_some hfind
      rw [beq_iff_eq] at ht
      exact ⟨t, by simp [resolve, hfind], ht⟩
  · intro h
    have hnone : registry.find? (fun t => t.name == n) = none := by
      rw [List.find?_eq_none]
      intro t ht
      simp [h t ht]
    simp [resolve, hnone]

/-- Witness for C4 at a concrete one-entry registry. -/
theorem resolve_registered_witness :
    (∃ s, resolve [⟨"t1", "nifti_gz", none⟩] "t1" = .ok s ∧
      s.name = "t1") ∧
    resolve [⟨"t1", "nifti_gz", none⟩] "missing" =
      .error (.unknownDataset "missing") :=
  ⟨(resolve_registered [⟨"t1", "nifti_gz", none⟩] "t1").1
      ⟨⟨"t1", "nifti_gz", none⟩, by decide, rfl⟩,
   (resolve_registered [⟨"t1", "nifti_gz", none⟩] "missing").2 (by decide)⟩

/-- In a declaration list whose names are distinct, `find?` at a member's
name returns that member. -/
theorem find?_name_eq_of_mem_nodup {l : List RegDatasetSpec}
    {c : RegDatasetSpec} {x : String} (hc : c ∈ l) (hcx : c.name = x)
    (hnodup : (l.map (fun s => s.name)).Nodup) :
    l.find? (fun s => s.name == x) = some c := by
  induction l with
  | nil => cases hc
  | cons a rest ih =>
    rw [List.map_cons, List.nodup_cons] at hnodup
    rcases List.mem_cons.mp hc with rfl | hmem
    · exact List.find?_cons_of_pos rest (by simp [hcx])
    · have hax : ¬ (a.name == x) = true := by
        rw [beq_iff_eq]
        intro h
        exact hnodup.1 (h ▸ hcx ▸ List.mem_map_of_mem (fun s => s.name) hmem)
      rw [List.find?_cons_of_neg rest hax]
      exact ih hmem hnodup.2

/-- A declaration list has no sibling name collision exactly when
`firstDuplicateName` finds nothing. -/
theorem firstDuplicateName_eq_none_iff (specs : List RegDatasetSpec) :
    firstDuplicateName specs = none ↔
      (specs.map (fun s => s.name)).Nodup := by
  induction specs with
  | nil => simp [firstDuplicateName]
  | cons s rest ih =>
    rw [List.map_cons, List.nodup_cons]
    by_cases h : rest.any (fun t => t.name == s.name) = true
    · rw [List.any_eq_true] at h
      obtain ⟨t, ht, htn⟩ := h
      rw [beq_iff_eq] at htn
      constructor
      · intro hfd
        rw [firstDuplicateName, if_pos (by
          rw [List.any_eq_true]
          exact ⟨t, ht, by simp [htn]⟩)] at hfd
        cases hfd
      · rintro ⟨habs, -⟩
        exact absurd (htn ▸ List.mem_map_of_mem (fun u => u.name) ht) habs
    · rw [firstDuplicateName, if_neg h, ih]
      rw [Bool.not_eq_true, List.any_eq_false] at h
      constructor
      · intro hnd
        refine ⟨fun hmem => ?_, hnd⟩
        rw [List.mem_map] at hmem
        obtain ⟨t, ht, htn⟩ := hmem
        exact absurd (by simp [htn]) (h t ht)
      · exact And.right

/-- C5: merging a parent registry with a child declaration list resolves a
name the child re-registers to the child's spec (child precedence), while a
declaration list containing two sibling specs with the same name fails at
registration with `DuplicateNameError`. -/
theorem child_override_merge (parent child : List RegDatasetSpec)
    (x : String) (c : RegDatasetSpec) (hc : c ∈ child) (hcx : c.name = x)
    (hnodup : (child.map (fun s => s.name)).Nodup) :
    resolve (merge_specs parent child) x = .ok c ∧
    (∀ specs : List RegDatasetSpec,
      ¬ (specs.map (fun s => s.name)).Nodup →
      ∃ n, register specs = .error (.duplicateName n)) := by
  constructor
  · have hleft : (parent.filter
        (fun s => ! child.any (fun t => t.name == s.name))).find?
          (fun s => s.name == x) = none := by
      rw [List.find?_eq_none]
      intro s hsmem
      rw [List.mem_filter, Bool.not_eq_eq_eq_not, Bool.not_true,
        List.any_eq_false] at hsmem
      rw [beq_iff_eq]
      intro hsx
      exact hsmem.2 c hc (by simp [hcx, hsx])
    rw [resolve, merge_specs, List.find?_append, hleft, Option.none_or,
      find?_name_eq_of_mem_nodup hc hcx hnodup]
  · intro specs hdup
    rcases hfd : firstDuplicateName specs with _ | n
    · exact absurd ((firstDuplicateName_eq_none_iff specs).mp hfd) hdup
    · exact ⟨n, by rw [register, hfd]⟩

/-- Witness for C5: the spec's override scenario — parent registers `x`
with producer `A`, the child re-registers `x` with producer `B`; the merged
registry resolves `x` to the child's spec, and a sibling list declaring `x`
twice fails registration. -/
theorem child_override_merge_witness :
    resolve (merge_specs [⟨"x", "fmt", some "A"⟩] [⟨"x", "fmt", some "B"⟩])
        "x" = .ok ⟨"x", "fmt", some "B"⟩ ∧
    ∃ n, register [⟨"x", "fmt", some "A"⟩, ⟨"x", "fmt", some "B"⟩] =
      .error (.duplicateName n) :=
  ⟨(child_override_merge [⟨"x", "fmt", some "A"⟩] [⟨"x", "fmt", some "B"⟩]
      "x" ⟨"x", "fmt", some "B"⟩ (by decide) rfl (by decide)).1,
   (child_override_merge [⟨"x", "fmt", some "A"⟩] [⟨"x", "fmt", some "B"⟩]
      "x" ⟨"x", "fmt", some "B"⟩ (by decide) rfl (by decide)).2
      [⟨"x", "fmt", some "A"⟩, ⟨"x", "fmt", some "B"⟩] (by decide)⟩

/-- C6: `connect_input` (respectively `connect_output`) on a dataset name
not declared among the pipeline's inputs (respectively outputs) at
`create_pipeline` time fails with `UndeclaredIOError`. -/
theorem connect_undeclared_io (p : Pipeline) (dn node field : String) :
    (dn ∉ p.inputs →
      connect_input p dn node field = .error (.undeclaredIOError dn)) ∧
    (dn ∉ p.outputs →
      connect_output p dn node field = .error (.undeclaredIOError dn)) := by
  constructor
  · intro h
    simp [connect_input, h]
  · intro h
    simp [connect_output, h]

/-- Witness for C6, mirroring the `optiBET_T1` factory's actual call: the
lowercase name `betted_t1` is not among the declared inputs of a pipeline
declaring `betted_T1`, so connecting it fails. -/
theorem connect_undeclared_io_witness :
    connect_input
        (create_pipeline "optiBET_T1"
          ["betted_T1", "T1_to_MNI_mat", "MNI_to_T1_warp"]
          ["opti_betted_T1", "opti_betted_T1_mask"])
        "betted_t1" "ApplyTransform" "reference_image" =
      .error (.undeclaredIOError "betted_t1") ∧
    connect_output
        (create_pipeline "optiBET_T1"
          ["betted_T1", "T1_to_MNI_mat", "MNI_to_T1_warp"]
          ["opti_betted_T1", "opti_betted_T1_mask"])
        "qsm" "qsmrecon" "qsm" =
      .error (.undeclaredIOError "qsm") :=
  ⟨(connect_undeclared_io
      (create_pipeline "optiBET_T1"
        ["betted_T1", "T1_to_MNI_mat", "MNI_to_T1_warp"]
        ["opti_betted_T1", "opti_betted_T1_mask"])
      "betted_t1" "ApplyTransform" "reference_image").1 (by decide),
   (connect_undeclared_io
      (create_pipeline "optiBET_T1"
        ["betted_T1", "T1_to_MNI_mat", "MNI_to_T1_warp"]
        ["opti_betted_T1", "opti_betted_T1_mask"])
      "qsm" "qsmrecon" "qsm").2 (by decide)⟩

end NiAnalysis
